import Mathlib

set_option autoImplicit false

/-!
Shallow embedding of the memorymeet Gatekeeper core: the subscription
ledger entity, the consumption service (authorize / debit / status), the
n8n callback handler, the webhook dispatch client and the circuit
breaker.  Hours are modelled as rationals; Python exceptions are
modelled as explicit error values; repository access is modelled over an
explicit store together with a trace of repository calls.
-/

namespace MemoryMeet

/-! ### String helpers

Executable models of the Python string operations the code uses
(`str.strip` only ever feeds an emptiness test, and `str.lower` is
applied to ASCII status words). -/

def isSpaceChar (c : Char) : Bool :=
  c = ' ' || c = '\t' || c = '\n' || c = '\r'

/-- `len(s.strip()) == 0` (also true for the falsy empty string). -/
def stripIsEmpty (s : String) : Bool :=
  s.data.all isSpaceChar

def charToLower (c : Char) : Char :=
  if 'A' ≤ c ∧ c ≤ 'Z' then Char.ofNat (c.toNat + 32) else c

/-- `s.lower()` over ASCII. -/
def strToLower (s : String) : String :=
  ⟨s.data.map charToLower⟩

/-- `abs(...)` of the Python tolerance check, as an executable
definition (`|·|` on `ℚ` does not reduce in the kernel). -/
def ratAbs (q : ℚ) : ℚ :=
  if q < 0 then -q else q

/-! ### Subscription entity (src/backend/app/domain/entities/subscription.py) -/

inductive SubscriptionStatus where
  | active
  | inactive
  | suspended
  | cancelled
  | trial
deriving DecidableEq, Repr

/-- The `.value` of the Python enum member. -/
def SubscriptionStatus.value : SubscriptionStatus → String
  | .active => "active"
  | .inactive => "inactive"
  | .suspended => "suspended"
  | .cancelled => "cancelled"
  | .trial => "trial"

inductive SubscriptionPlan where
  | basic
  | professional
  | enterprise
deriving DecidableEq, Repr

/-- Fields of the `Subscription` dataclass that carry domain logic
(timestamps and currency are omitted: no rule reads them). -/
structure Subscription where
  id : String
  user_id : String
  plan : SubscriptionPlan
  status : SubscriptionStatus
  monthly_hours_limit : ℚ
  available_hours : ℚ
  consumed_hours : ℚ
  monthly_price : ℚ
deriving DecidableEq, Repr

/-- `Subscription._validate_domain_invariants`: returns the message of the
first `ValueError` raised, or `none` when every check passes. -/
def Subscription.validate (s : Subscription) : Option String :=
  if stripIsEmpty s.id then some "Subscription ID cannot be empty"
  else if stripIsEmpty s.user_id then some "User ID cannot be empty"
  else if s.monthly_hours_limit ≤ 0 then some "Monthly hours limit must be positive"
  else if s.available_hours < 0 then some "Available hours cannot be negative"
  else if s.consumed_hours < 0 then some "Consumed hours cannot be negative"
  else if s.monthly_price < 0 then some "Monthly price cannot be negative"
  else if 1/100 < ratAbs (s.consumed_hours + s.available_hours - s.monthly_hours_limit) then
    some "Hours consistency violation"
  else none

/-- Constructing a `Subscription(...)` in Python runs `__post_init__`,
which validates the domain invariants and raises `ValueError` on
violation. -/
def Subscription.make (s : Subscription) : Except String Subscription :=
  match s.validate with
  | some msg => Except.error msg
  | none => Except.ok s

/-- `Subscription.has_available_hours`. -/
def Subscription.has_available_hours (s : Subscription) (required_hours : ℚ) : Bool :=
  decide (s.status = SubscriptionStatus.active ∧ required_hours ≤ s.available_hours)

/-- `Subscription.consume_hours`: checks availability, then builds a new
instance (which re-runs `__post_init__` validation). -/
def Subscription.consume_hours (s : Subscription) (hours_to_consume : ℚ) :
    Except String Subscription :=
  if s.has_available_hours hours_to_consume then
    Subscription.make { s with
      available_hours := s.available_hours - hours_to_consume
      consumed_hours := s.consumed_hours + hours_to_consume }
  else
    Except.error "Insufficient hours"

/-- `Subscription.get_consumption_percentage`. -/
def Subscription.get_consumption_percentage (s : Subscription) : ℚ :=
  if s.monthly_hours_limit = 0 then 0
  else s.consumed_hours / s.monthly_hours_limit * 100

/-- `Subscription.suspend`: builds a suspended copy with
`available_hours = 0.0` (re-running `__post_init__` validation). -/
def Subscription.suspend (s : Subscription) : Except String Subscription :=
  Subscription.make { s with
    status := SubscriptionStatus.suspended
    available_hours := 0 }

/-- The ledger invariant named by the specification. -/
def ledgerInvariant (s : Subscription) : Prop :=
  |s.consumed_hours + s.available_hours - s.monthly_hours_limit| ≤ 1/100 ∧
  0 ≤ s.available_hours ∧ 0 ≤ s.consumed_hours ∧ 0 < s.monthly_hours_limit

/-! ### User entity (src/backend/app/domain/entities/user.py) -/

structure User where
  id : String
  email : String
  full_name : String
  is_active : Bool
  is_verified : Bool
deriving DecidableEq, Repr

/-- `User.can_access_system`. -/
def User.can_access_system (u : User) : Bool :=
  u.is_active && u.is_verified

/-! ### Domain exceptions (src/backend/app/domain/exceptions/consumption_exceptions.py) -/

/-- The domain exceptions defined in `consumption_exceptions.py`, with the
structured fields each constructor stores. -/
inductive ConsumptionError where
  | userNotFound (user_id : String)
  | subscriptionNotFound (user_id : String)
  | subscriptionSuspended (user_id : String) (subscription_id : String) (reason : String)
  | insufficientHours (user_id : String) (required_hours : ℚ) (available_hours : ℚ)
      (subscription_status : String)
  | invalidConsumption (user_id : String) (invalid_hours : ℚ) (reason : String)
deriving DecidableEq, Repr

/-- Modelled from the spec: the distinct `TransactionFailed` error
(imported as `DatabaseTransactionException` by `consumption_router.py`,
`webhook_trigger.py` and the tests, but not defined anywhere under
`src/`).  The router reads `transaction_id` and `user_id` from it. -/
structure DatabaseTransactionException where
  message : String
  transaction_id : Option String
  user_id : Option String
deriving DecidableEq, Repr

/-- A Python exception surfaced by the consumption code paths. -/
inductive PyError where
  | domain (e : ConsumptionError)
  | databaseTransaction (e : DatabaseTransactionException)
  | valueError (message : String)
deriving DecidableEq, Repr

def PyError.isDatabaseTransaction : PyError → Bool
  | .databaseTransaction _ => true
  | _ => false

def PyError.isInsufficientHours : PyError → Bool
  | .domain (.insufficientHours _ _ _ _) => true
  | _ => false

/-! ### Repository store
(src/backend/app/domain/repositories/subscription_repository.py) -/

/-- An audit record persisted by the spec-modelled debit used by the
callback path; the `meeting_id` field is the reference the debit was
invoked with. -/
structure AuditEntry where
  user_id : String
  hours_consumed : ℚ
  meeting_id : String
deriving DecidableEq, Repr

/-- The committed state behind the repository ports. -/
structure Store where
  users : List (String × User)
  subscriptions : List (String × Subscription)
  audit : List AuditEntry
deriving DecidableEq, Repr

def lookupEntry {α : Type} : List (String × α) → String → Option α
  | [], _ => none
  | (k, v) :: rest, key => if k = key then some v else lookupEntry rest key

def setEntry {α : Type} : List (String × α) → String → α → List (String × α)
  | [], _, _ => []
  | (k, v) :: rest, key, val =>
    if k = key then (k, val) :: rest else (k, v) :: setEntry rest key val

/-- `UserRepository.get_user_by_id`. -/
def Store.get_user_by_id (st : Store) (user_id : String) : Option User :=
  lookupEntry st.users user_id

/-- `SubscriptionRepository.get_active_subscription_by_user_id`. -/
def Store.get_active_subscription_by_user_id (st : Store) (user_id : String) :
    Option Subscription :=
  lookupEntry st.subscriptions user_id

/-- `SubscriptionRepository.update_subscription`, committed. -/
def Store.update_subscription (st : Store) (user_id : String) (s : Subscription) : Store :=
  { st with subscriptions := setEntry st.subscriptions user_id s }

/-- One repository call, as observed by the service layer. -/
inductive StoreCall where
  | getUser (user_id : String)
  | getActiveSubscription (user_id : String)
  | beginTransaction
  | updateSubscription (subscription_id : String)
  | commitTransaction
  | rollbackTransaction
deriving DecidableEq, Repr

/-- A call is a read when it cannot change persisted state. -/
def StoreCall.isRead : StoreCall → Bool
  | .getUser _ => true
  | .getActiveSubscription _ => true
  | _ => false

/-! ### Gatekeeper service
(src/backend/app/domain/services/subscription_consumption_service.py) -/

structure ConsumptionVerificationResult where
  can_consume : Bool
  user : User
  subscription : Subscription
  remaining_hours : ℚ
  consumption_percentage : ℚ
deriving DecidableEq, Repr

structure ConsumptionResult where
  success : Bool
  updated_subscription : Subscription
  consumed_hours : ℚ
  remaining_hours : ℚ
  transaction_id : Option String
deriving DecidableEq, Repr

/-- `SubscriptionConsumptionService.verificar_consumo_disponible`: the
Authorize check, returned together with the repository calls it makes. -/
def verificar_consumo_disponible (st : Store) (user_id : String) (required_hours : ℚ) :
    Except PyError ConsumptionVerificationResult × List StoreCall :=
  if required_hours ≤ 0 then
    (Except.error (.domain (.invalidConsumption user_id required_hours
      "Required hours must be positive")), [])
  else
    match st.get_user_by_id user_id with
    | none => (Except.error (.domain (.userNotFound user_id)), [.getUser user_id])
    | some user =>
      if user.can_access_system = false then
        (Except.error (.domain (.userNotFound
          ("User " ++ user_id ++ " cannot access system"))), [.getUser user_id])
      else
        match st.get_active_subscription_by_user_id user_id with
        | none =>
          (Except.error (.domain (.subscriptionNotFound user_id)),
            [.getUser user_id, .getActiveSubscription user_id])
        | some subscription =>
          if subscription.status = SubscriptionStatus.suspended then
            (Except.error (.domain (.subscriptionSuspended user_id subscription.id
              "Subscription is suspended")),
              [.getUser user_id, .getActiveSubscription user_id])
          else if subscription.has_available_hours required_hours = false then
            (Except.error (.domain (.insufficientHours user_id required_hours
              subscription.available_hours subscription.status.value)),
              [.getUser user_id, .getActiveSubscription user_id])
          else
            (Except.ok {
              can_consume := true
              user := user
              subscription := subscription
              remaining_hours := subscription.available_hours - required_hours
              consumption_percentage := subscription.get_consumption_percentage },
              [.getUser user_id, .getActiveSubscription user_id])

/-- Injected failures of the three persistence steps of the debit
transaction (`begin_transaction`, `update_subscription`,
`commit_transaction`); `some msg` means the step raises `msg`. -/
structure TxFaults where
  begin_fault : Option String
  update_fault : Option String
  commit_fault : Option String
deriving DecidableEq, Repr

/-- The exception caught by the `try` block of the debit: the message of
the first persistence step that raises. -/
def firstTxFault (f : TxFaults) : Option String :=
  match f.begin_fault with
  | some msg => some msg
  | none =>
    match f.update_fault with
    | some msg => some msg
    | none => f.commit_fault

def noTxFaults : TxFaults :=
  { begin_fault := none, update_fault := none, commit_fault := none }

/-- `SubscriptionConsumptionService.consumir_horas`: re-runs the
authorization check, debits the entity, then persists inside
begin/update/commit; any exception there triggers
`rollback_transaction` and is re-raised wrapped as
`InvalidConsumptionException` with reason `"Transaction failed: ..."`. -/
def consumir_horas (st : Store) (faults : TxFaults) (user_id : String)
    (hours_to_consume : ℚ) :
    Except PyError ConsumptionResult × Store × List StoreCall :=
  match verificar_consumo_disponible st user_id hours_to_consume with
  | (Except.error e, trace) => (Except.error e, st, trace)
  | (Except.ok verification, trace) =>
    match verification.subscription.consume_hours hours_to_consume with
    | Except.error msg => (Except.error (.valueError msg), st, trace)
    | Except.ok updated_subscription =>
      match firstTxFault faults with
      | some msg =>
        (Except.error (.domain (.invalidConsumption user_id hours_to_consume
          ("Transaction failed: " ++ msg))),
          st, trace ++ [.beginTransaction, .rollbackTransaction])
      | none =>
        (Except.ok {
          success := true
          updated_subscription := updated_subscription
          consumed_hours := hours_to_consume
          remaining_hours := updated_subscription.available_hours
          transaction_id := none },
          st.update_subscription user_id updated_subscription,
          trace ++ [.beginTransaction,
            .updateSubscription updated_subscription.id, .commitTransaction])

/-- `SubscriptionConsumptionService.obtener_estado_consumo`: the Status
query, implemented as the authorization check with `0.1` hours. -/
def obtener_estado_consumo (st : Store) (user_id : String) :
    Except PyError ConsumptionVerificationResult × List StoreCall :=
  verificar_consumo_disponible st user_id (1/10)

/-! ### Post-processing debit used by the callback path -/

/-- `ConsumptionUpdateResult` from
`src/backend/app/domain/value_objects/consumption_response.py`: per its
docstring, the result of `actualizar_registro_consumo`.  It has NO
`consumption_percentage` field (the timestamp is omitted like the other
datetime fields: no rule reads it). -/
structure ConsumptionUpdateResult where
  success : Bool
  hours_consumed : ℚ
  remaining_hours : ℚ
  transaction_id : Option String
  error_message : Option String
deriving DecidableEq, Repr

/-- Modelled from the spec: `actualizar_registro_consumo`, the
Gatekeeper debit `Debit(userId, hours, referenceId)` invoked by the
callback endpoints; the method is missing from `src/` (only its tests
and callers exist).  Per the spec and its tests it validates the
duration and the reference, converts minutes to hours by dividing by
60, re-runs the authorization check, debits the ledger and persists
inside a single begin/update/commit transaction (rollback plus
`DatabaseTransactionException` on persistence failure), records an
audit entry carrying the reference it was invoked with, and returns the
repository's `ConsumptionUpdateResult` (the tests read its `success`,
`hours_consumed` and `remaining_hours` fields). -/
def actualizar_registro_consumo (st : Store) (faults : TxFaults) (user_id : String)
    (duration_minutes : ℤ) (meeting_id : String) :
    Except PyError ConsumptionUpdateResult × Store × List StoreCall :=
  if duration_minutes ≤ 0 then
    (Except.error (.valueError "Duration must be greater than 0"), st, [])
  else if stripIsEmpty meeting_id then
    (Except.error (.valueError "Meeting ID cannot be empty"), st, [])
  else
    let hours : ℚ := (duration_minutes : ℚ) / 60
    match verificar_consumo_disponible st user_id hours with
    | (Except.error e, trace) => (Except.error e, st, trace)
    | (Except.ok verification, trace) =>
      match verification.subscription.consume_hours hours with
      | Except.error msg => (Except.error (.valueError msg), st, trace)
      | Except.ok updated =>
        match firstTxFault faults with
        | some msg =>
          (Except.error (.databaseTransaction
            { message := msg, transaction_id := none, user_id := some user_id }),
            st, trace ++ [.beginTransaction, .rollbackTransaction])
        | none =>
          let st1 := st.update_subscription user_id updated
          (Except.ok {
            success := true
            hours_consumed := hours
            remaining_hours := updated.available_hours
            transaction_id := none
            error_message := none },
            { st1 with audit := st1.audit ++
              [{ user_id := user_id, hours_consumed := hours, meeting_id := meeting_id }] },
            trace ++ [.beginTransaction, .updateSubscription updated.id, .commitTransaction])

/-! ### n8n callback endpoint (src/backend/app/api/v1/consumption_router.py) -/

structure N8NCallbackRequest where
  user_id : String
  meeting_id : String
  processing_id : String
  actual_duration_minutes : ℤ
  prd_generated : Bool
  tasks_created : ℕ
  processing_status : String
  error_message : Option String
deriving DecidableEq, Repr

structure N8NCallbackResponse where
  success : Bool
  message : String
  processing_id : String
  consumption_updated : Bool
  remaining_hours : Option ℚ
  consumption_percentage : Option ℚ
deriving DecidableEq, Repr

/-- An `HTTPException` raised by a router handler, reduced to the status
code and the `error` tag of its detail object. -/
structure HttpError where
  status_code : ℕ
  error : String
deriving DecidableEq, Repr

/-- `n8n_processing_callback`: acknowledges failed processings without
touching consumption; otherwise calls `actualizar_registro_consumo`
with the callback user id, the actual duration in minutes, and the
meeting id, and maps each caught exception to its own HTTP error.  On a
successful debit, building the success response reads
`update_result.consumption_percentage` — a field
`ConsumptionUpdateResult` does not have — so an `AttributeError` lands
in the final generic handler and a 500 `INTERNAL_ERROR` is returned
(the debit transaction has already committed). -/
def n8n_processing_callback (st : Store) (faults : TxFaults)
    (callback_data : N8NCallbackRequest) :
    Except HttpError N8NCallbackResponse × Store :=
  if strToLower callback_data.processing_status = "failed" then
    (Except.ok {
      success := true
      message := "Processing failure acknowledged. No consumption update performed."
      processing_id := callback_data.processing_id
      consumption_updated := false
      remaining_hours := none
      consumption_percentage := none }, st)
  else
    match actualizar_registro_consumo st faults callback_data.user_id
      callback_data.actual_duration_minutes callback_data.meeting_id with
    | (Except.ok _, st2, _) =>
      (Except.error { status_code := 500, error := "INTERNAL_ERROR" }, st2)
    | (Except.error (.domain (.userNotFound _)), st2, _) =>
      (Except.error { status_code := 404, error := "USER_NOT_FOUND" }, st2)
    | (Except.error (.domain (.subscriptionNotFound _)), st2, _) =>
      (Except.error { status_code := 404, error := "SUBSCRIPTION_NOT_FOUND" }, st2)
    | (Except.error (.databaseTransaction _), st2, _) =>
      (Except.error { status_code := 500, error := "CONSUMPTION_UPDATE_FAILED" }, st2)
    | (Except.error _, st2, _) =>
      (Except.error { status_code := 500, error := "INTERNAL_ERROR" }, st2)

/-! ### Circuit breaker (src/ia_module/circuit_breaker.py) -/

/-- `CircuitState`; `opened` stands for the Python member `OPEN`
(`open` is reserved in Lean). -/
inductive CircuitState where
  | closed
  | opened
  | halfOpen
deriving DecidableEq, Repr

structure CircuitBreaker where
  failure_threshold : ℕ
  timeout : ℚ
  state : CircuitState
  failure_count : ℕ
  last_failure_time : Option ℚ
  total_calls : ℕ
  successful_calls : ℕ
  failed_calls : ℕ
deriving DecidableEq, Repr

/-- `CircuitBreaker.__init__`. -/
def CircuitBreaker.make (failure_threshold : ℕ) (timeout : ℚ) : CircuitBreaker :=
  { failure_threshold := failure_threshold
    timeout := timeout
    state := CircuitState.closed
    failure_count := 0
    last_failure_time := none
    total_calls := 0
    successful_calls := 0
    failed_calls := 0 }

/-- `CircuitBreaker._should_attempt_reset`, with `now` in place of
`time.time()`. -/
def CircuitBreaker.should_attempt_reset (cb : CircuitBreaker) (now : ℚ) : Bool :=
  match cb.last_failure_time with
  | none => true
  | some t => decide (cb.timeout ≤ now - t)

/-- `CircuitBreaker._on_success`. -/
def CircuitBreaker.on_success (cb : CircuitBreaker) : CircuitBreaker :=
  { cb with
    failure_count := 0
    successful_calls := cb.successful_calls + 1
    state := CircuitState.closed }

/-- `CircuitBreaker._on_failure`, with `now` in place of `time.time()`. -/
def CircuitBreaker.on_failure (cb : CircuitBreaker) (now : ℚ) : CircuitBreaker :=
  let cb1 := { cb with
    failure_count := cb.failure_count + 1
    failed_calls := cb.failed_calls + 1
    last_failure_time := some now }
  if cb1.failure_threshold ≤ cb1.failure_count then
    { cb1 with state := CircuitState.opened }
  else cb1

/-- Behaviour of the protected function `fn` on one invocation: it
either returns or raises, and a raised exception either is or is not an
instance of `expected_exception`. -/
inductive FnBehavior where
  | succeeds
  | raises (matches_expected : Bool)
deriving DecidableEq, Repr

/-- What `CircuitBreaker.call` does from the caller's point of view. -/
inductive CallOutcome where
  | ok
  | raised
  | circuitOpen
deriving DecidableEq, Repr

/-- The head of `CircuitBreaker.call`: increment `total_calls`, and when
the state is OPEN either move to HALF_OPEN (a recorded failure exists
and the timeout elapsed) or refuse the call.  The boolean is `true` when
the protected function may be invoked. -/
def CircuitBreaker.gate (cb : CircuitBreaker) (now : ℚ) : CircuitBreaker × Bool :=
  let cb1 := { cb with total_calls := cb.total_calls + 1 }
  if cb1.state = CircuitState.opened then
    if cb1.last_failure_time.isSome && cb1.should_attempt_reset now then
      ({ cb1 with state := CircuitState.halfOpen }, true)
    else (cb1, false)
  else (cb1, true)

/-- `CircuitBreaker.call` over the behaviour of `fn`; the final boolean
records whether `fn` was invoked. -/
def CircuitBreaker.call (cb : CircuitBreaker) (now : ℚ) (fn : FnBehavior) :
    CallOutcome × CircuitBreaker × Bool :=
  match cb.gate now with
  | (cb1, false) => (CallOutcome.circuitOpen, cb1, false)
  | (cb1, true) =>
    match fn with
    | FnBehavior.succeeds => (CallOutcome.ok, cb1.on_success, true)
    | FnBehavior.raises matched =>
      (CallOutcome.raised, if matched then cb1.on_failure now else cb1, true)

/-- A sequence of calls whose protected function raises an expected
exception, at the given timestamps. -/
def applyFailures : CircuitBreaker → List ℚ → CircuitBreaker
  | cb, [] => cb
  | cb, t :: rest => applyFailures (cb.call t (FnBehavior.raises true)).2.1 rest

/-! ### Webhook dispatch client (src/backend/app/services/webhook_trigger.py) -/

inductive WebhookStatus where
  | pending
  | sent
  | failed
  | timedOut
deriving DecidableEq, Repr

/-- The `.value` of the Python enum member (`timedOut` stands for
`TIMEOUT`). -/
def WebhookStatus.value : WebhookStatus → String
  | .pending => "pending"
  | .sent => "sent"
  | .failed => "failed"
  | .timedOut => "timeout"

/-- The payload fields the dispatch and response logic reads (the other
fields are carried verbatim into the outbound JSON). -/
structure WebhookPayload where
  user_id : String
  meeting_id : String
  workflow_trigger_id : String
deriving DecidableEq, Repr

structure WebhookResponse where
  status : WebhookStatus
  webhook_trigger_id : String
  error_message : Option String
  http_status_code : Option ℕ
deriving DecidableEq, Repr

/-- `WebhookResponse.is_successful` (note the Python truthiness test on
`http_status_code`). -/
def WebhookResponse.is_successful (r : WebhookResponse) : Bool :=
  decide (r.status = WebhookStatus.sent) &&
    (match r.http_status_code with
     | none => false
     | some c => decide (c ≠ 0) && decide (200 ≤ c) && decide (c < 300))

/-- What one HTTP POST attempt does: a response with a status code, an
`httpx.TimeoutException`, an `httpx.RequestError`, or some other
exception escaping `_send_webhook_request`. -/
inductive AttemptOutcome where
  | httpResponse (status_code : ℕ)
  | timeoutError
  | requestError (msg : String)
  | otherException (msg : String)
deriving DecidableEq, Repr

/-- `WebhookTrigger._send_webhook_request`: classifies one attempt, or
re-raises an unexpected exception. -/
def send_webhook_request (payload : WebhookPayload) (outcome : AttemptOutcome) :
    Except String WebhookResponse :=
  match outcome with
  | .httpResponse code =>
    if 200 ≤ code ∧ code < 300 then
      Except.ok { status := WebhookStatus.sent
                  webhook_trigger_id := payload.workflow_trigger_id
                  error_message := none
                  http_status_code := some code }
    else
      Except.ok { status := WebhookStatus.failed
                  webhook_trigger_id := payload.workflow_trigger_id
                  error_message := some "HTTP error"
                  http_status_code := some code }
  | .timeoutError =>
    Except.ok { status := WebhookStatus.timedOut
                webhook_trigger_id := payload.workflow_trigger_id
                error_message := some "Request timeout"
                http_status_code := none }
  | .requestError msg =>
    Except.ok { status := WebhookStatus.failed
                webhook_trigger_id := payload.workflow_trigger_id
                error_message := some ("Request error: " ++ msg)
                http_status_code := none }
  | .otherException msg => Except.error msg

/-- The retry loop of `trigger_n8n_workflow`: attempts are numbered
`1..max_retries` (here `attempt = max_retries - remaining`), a
non-successful response or an exception on the last attempt is
returned, and the trailing safety return fires when `max_retries = 0`. -/
def webhook_attempt_loop (payload : WebhookPayload) (attempts : ℕ → AttemptOutcome)
    (max_retries : ℕ) : ℕ → WebhookResponse
  | 0 =>
    { status := WebhookStatus.failed
      webhook_trigger_id := payload.workflow_trigger_id
      error_message := some "Max retries exceeded"
      http_status_code := none }
  | remaining + 1 =>
    match send_webhook_request payload (attempts (max_retries - remaining)) with
    | Except.ok resp =>
      if resp.is_successful then resp
      else if remaining = 0 then resp
      else webhook_attempt_loop payload attempts max_retries remaining
    | Except.error msg =>
      if remaining = 0 then
        { status := WebhookStatus.failed
          webhook_trigger_id := payload.workflow_trigger_id
          error_message := some ("HTTP request failed: " ++ msg)
          http_status_code := none }
      else webhook_attempt_loop payload attempts max_retries remaining

/-- `WebhookTrigger.trigger_n8n_workflow`, threaded through the
repository store it never touches: the function performs no repository
call, so the store is returned unchanged with an empty call trace. -/
def trigger_n8n_workflow (st : Store) (webhook_url : Option String)
    (max_retries : ℕ) (payload : WebhookPayload) (attempts : ℕ → AttemptOutcome) :
    WebhookResponse × Store × List StoreCall :=
  match webhook_url with
  | none =>
    ({ status := WebhookStatus.failed
       webhook_trigger_id := payload.workflow_trigger_id
       error_message := some "No webhook URL configured"
       http_status_code := none }, st, [])
  | some _ =>
    (webhook_attempt_loop payload attempts max_retries max_retries, st, [])

/-! ### /process/start endpoint (src/backend/app/api/v1/consumption_router.py) -/

structure ProcessStartRequest where
  user_id : String
  meeting_id : String
  estimated_duration_minutes : ℤ
deriving DecidableEq, Repr

inductive ProcessStartOutcome where
  | authorized (remaining_hours : ℚ) (consumption_percentage : ℚ)
  | httpError (status_code : ℕ) (error : String)
deriving DecidableEq, Repr

/-- `iniciar_procesamiento_reunion`: authorize via the Gatekeeper, then
dispatch the webhook; each domain exception maps to its own HTTP error,
a suspended subscription escapes uncaught (a 500), and the dispatch
result branch compares `status.value` against the uppercase `"SENT"`. -/
def iniciar_procesamiento_reunion (st : Store) (req : ProcessStartRequest)
    (webhook_url : Option String) (max_retries : ℕ) (attempts : ℕ → AttemptOutcome) :
    ProcessStartOutcome × Store :=
  let estimated_hours : ℚ := (req.estimated_duration_minutes : ℚ) / 60
  match verificar_consumo_disponible st req.user_id estimated_hours with
  | (Except.error (.domain (.insufficientHours _ _ _ _)), _) =>
    (ProcessStartOutcome.httpError 403 "INSUFFICIENT_HOURS", st)
  | (Except.error (.domain (.userNotFound _)), _) =>
    (ProcessStartOutcome.httpError 404 "USER_NOT_FOUND", st)
  | (Except.error (.domain (.subscriptionNotFound _)), _) =>
    (ProcessStartOutcome.httpError 403 "NO_ACTIVE_SUBSCRIPTION", st)
  | (Except.error (.domain (.invalidConsumption _ _ _)), _) =>
    (ProcessStartOutcome.httpError 400 "INVALID_CONSUMPTION", st)
  | (Except.error _, _) =>
    (ProcessStartOutcome.httpError 500 "UNHANDLED_EXCEPTION", st)
  | (Except.ok verification, _) =>
    let payload : WebhookPayload :=
      { user_id := req.user_id
        meeting_id := req.meeting_id
        workflow_trigger_id := "proc-" ++ req.meeting_id }
    match trigger_n8n_workflow st webhook_url max_retries payload attempts with
    | (webhook_response, st2, _) =>
      if webhook_response.status.value = "SENT" then
        (ProcessStartOutcome.authorized verification.remaining_hours
          verification.consumption_percentage, st2)
      else
        (ProcessStartOutcome.httpError 503 "WORKFLOW_UNAVAILABLE", st2)

/-! ### Shared helper lemmas -/

theorem ratAbs_eq_abs (q : ℚ) : ratAbs q = |q| := by
  unfold ratAbs
  rcases lt_or_le q 0 with h | h
  · rw [if_pos h, abs_of_neg h]
  · rw [if_neg (not_lt.mpr h), abs_of_nonneg h]

/-- A subscription that passes `_validate_domain_invariants` satisfies the
ledger invariant. -/
theorem ledgerInvariant_of_validate (s : Subscription) (h : s.validate = none) :
    ledgerInvariant s := by
  unfold Subscription.validate at h
  repeat' split at h
  all_goals simp_all [ratAbs_eq_abs]
  unfold ledgerInvariant
  refine ⟨by linarith, by linarith, by linarith, by linarith⟩

/-- Constructing a subscription succeeds exactly on validated values. -/
theorem make_ok (s s1 : Subscription) (h : Subscription.make s = Except.ok s1) :
    s.validate = none ∧ s1 = s := by
  unfold Subscription.make at h
  split at h
  · exact absurd h (by simp)
  · refine ⟨by assumption, ?_⟩
    injection h with h2
    exact h2.symm

/-! ### Concrete fixtures used by witnesses and counterexamples -/

theorem stripIsEmpty_subId : stripIsEmpty "sub-1" = false := rfl

theorem stripIsEmpty_userId : stripIsEmpty "user-1" = false := rfl

theorem stripIsEmpty_meetingId : stripIsEmpty "meeting-456" = false := rfl

def wUser : User :=
  { id := "user-1", email := "user@memorymeet.io", full_name := "Test User",
    is_active := true, is_verified := true }

def wSub : Subscription :=
  { id := "sub-1", user_id := "user-1", plan := SubscriptionPlan.professional,
    status := SubscriptionStatus.active, monthly_hours_limit := 100,
    available_hours := 75, consumed_hours := 25, monthly_price := 99 }

def wStore : Store :=
  { users := [("user-1", wUser)], subscriptions := [("user-1", wSub)], audit := [] }

def wSubConsumed : Subscription :=
  { wSub with available_hours := 65, consumed_hours := 35 }

def wSubFull : Subscription :=
  { wSub with available_hours := 0, consumed_hours := 100 }

def wSubSuspendedFull : Subscription :=
  { wSubFull with status := SubscriptionStatus.suspended }

def wCommitFault : TxFaults :=
  { begin_fault := none, update_fault := none, commit_fault := some "db commit error" }

/-! ### Claim C3 -/

/-- Claim C3: after every mutation exposed by the `Subscription` entity
(construction, `consume_hours`, `suspend`) that returns a subscription,
the ledger invariant holds: consumed + available = limit within
tolerance 0.01, with available ≥ 0, consumed ≥ 0 and limit > 0. -/
theorem ledger_invariants_after_entity_mutations
    (sa sb sc s1 s2 s3 : Subscription) (hours : ℚ) :
    (Subscription.make sa = Except.ok s1 → ledgerInvariant s1) ∧
    (sb.consume_hours hours = Except.ok s2 → ledgerInvariant s2) ∧
    (sc.suspend = Except.ok s3 → ledgerInvariant s3) := by
  refine ⟨?_, ?_, ?_⟩
  · intro h
    obtain ⟨hv, rfl⟩ := make_ok sa s1 h
    exact ledgerInvariant_of_validate _ hv
  · intro h
    unfold Subscription.consume_hours at h
    split at h
    · obtain ⟨hv, rfl⟩ := make_ok _ _ h
      exact ledgerInvariant_of_validate _ hv
    · exact absurd h (by simp)
  · intro h
    unfold Subscription.suspend at h
    obtain ⟨hv, rfl⟩ := make_ok _ _ h
    exact ledgerInvariant_of_validate _ hv

/-- Witness for C3: a fresh ledger, a ledger after a 10-hour debit, and a
fully-consumed ledger after suspension all satisfy the invariant. -/
theorem ledger_invariants_after_entity_mutations_witness :
    ledgerInvariant wSub ∧ ledgerInvariant wSubConsumed ∧
      ledgerInvariant wSubSuspendedFull := by
  obtain ⟨h1, h2, h3⟩ :=
    ledger_invariants_after_entity_mutations wSub wSub wSubFull
      wSub wSubConsumed wSubSuspendedFull 10
  refine ⟨h1 ?_, h2 ?_, h3 ?_⟩
  · simp [Subscription.make, Subscription.validate, wSub, stripIsEmpty,
      isSpaceChar, ratAbs]
    norm_num
  · simp [Subscription.consume_hours, Subscription.has_available_hours,
      Subscription.make, Subscription.validate, wSub, wSubConsumed,
      stripIsEmpty, isSpaceChar, ratAbs]
    norm_num
  · simp [Subscription.suspend, Subscription.make, Subscription.validate,
      wSub, wSubFull, wSubSuspendedFull, stripIsEmpty, isSpaceChar, ratAbs]
    norm_num

/-! ### Claim C6 -/

/-- Claim C6: Authorize performs its checks in the fixed order
input validation, user exists, user can access, subscription exists,
subscription not suspended, sufficient hours; for a nonexistent user the
subscription store is never queried, and for non-positive required
hours no store at all is queried. -/
theorem authorize_check_order_fixed (st : Store) (user_id : String)
    (required_hours : ℚ) :
    (required_hours ≤ 0 →
      verificar_consumo_disponible st user_id required_hours =
        (Except.error (.domain (.invalidConsumption user_id required_hours
          "Required hours must be positive")), [])) ∧
    (0 < required_hours → st.get_user_by_id user_id = none →
      verificar_consumo_disponible st user_id required_hours =
        (Except.error (.domain (.userNotFound user_id)),
          [StoreCall.getUser user_id])) ∧
    (∀ u, 0 < required_hours → st.get_user_by_id user_id = some u →
      u.can_access_system = false →
      verificar_consumo_disponible st user_id required_hours =
        (Except.error (.domain (.userNotFound
          ("User " ++ user_id ++ " cannot access system"))),
          [StoreCall.getUser user_id])) ∧
    (∀ u, 0 < required_hours → st.get_user_by_id user_id = some u →
      u.can_access_system = true →
      st.get_active_subscription_by_user_id user_id = none →
      verificar_consumo_disponible st user_id required_hours =
        (Except.error (.domain (.subscriptionNotFound user_id)),
          [StoreCall.getUser user_id, StoreCall.getActiveSubscription user_id])) ∧
    (∀ u sub, 0 < required_hours → st.get_user_by_id user_id = some u →
      u.can_access_system = true →
      st.get_active_subscription_by_user_id user_id = some sub →
      sub.status = SubscriptionStatus.suspended →
      verificar_consumo_disponible st user_id required_hours =
        (Except.error (.domain (.subscriptionSuspended user_id sub.id
          "Subscription is suspended")),
          [StoreCall.getUser user_id, StoreCall.getActiveSubscription user_id])) ∧
    (∀ u sub, 0 < required_hours → st.get_user_by_id user_id = some u →
      u.can_access_system = true →
      st.get_active_subscription_by_user_id user_id = some sub →
      sub.status ≠ SubscriptionStatus.suspended →
      sub.has_available_hours required_hours = false →
      verificar_consumo_disponible st user_id required_hours =
        (Except.error (.domain (.insufficientHours user_id required_hours
          sub.available_hours sub.status.value)),
          [StoreCall.getUser user_id, StoreCall.getActiveSubscription user_id])) := by
  refine ⟨?_, ?_, ?_, ?_, ?_, ?_⟩
  · intro h0
    simp [verificar_consumo_disponible, h0]
  · intro h0 hu
    simp [verificar_consumo_disponible, not_le.mpr h0, hu]
  · intro u h0 hu hacc
    simp [verificar_consumo_disponible, not_le.mpr h0, hu, hacc]
  · intro u h0 hu hacc hs
    simp [verificar_consumo_disponible, not_le.mpr h0, hu, hacc, hs]
  · intro u sub h0 hu hacc hs hsusp
    simp [verificar_consumo_disponible, not_le.mpr h0, hu, hacc, hs, hsusp]
  · intro u sub h0 hu hacc hs hsusp hins
    simp [verificar_consumo_disponible, not_le.mpr h0, hu, hacc, hs, hsusp, hins]

/-- Witness for C6: on an empty store, asking one hour for a nonexistent
user reports `UserNotFound` after querying only the user store. -/
theorem authorize_check_order_fixed_witness :
    verificar_consumo_disponible
        { users := [], subscriptions := [], audit := [] } "ghost-user" 1 =
      (Except.error (.domain (.userNotFound "ghost-user")),
        [StoreCall.getUser "ghost-user"]) :=
  (authorize_check_order_fixed
    { users := [], subscriptions := [], audit := [] } "ghost-user" 1).2.1
    (by norm_num) (by rfl)

/-! ### Claim C7 -/

/-- Claim C7: for an accessible user whose ACTIVE subscription has enough
hours, Authorize succeeds without any mutating store call and returns
the balance after the hypothetical debit and the consumption
percentage consumed / limit * 100. -/
theorem authorize_success_projection (st : Store) (user_id : String)
    (required_hours : ℚ) (u : User) (sub : Subscription)
    (hu : st.get_user_by_id user_id = some u)
    (hacc : u.can_access_system = true)
    (hs : st.get_active_subscription_by_user_id user_id = some sub)
    (hstat : sub.status = SubscriptionStatus.active)
    (hlim : 0 < sub.monthly_hours_limit)
    (hr0 : 0 < required_hours)
    (hra : required_hours ≤ sub.available_hours) :
    (verificar_consumo_disponible st user_id required_hours).1 =
      Except.ok { can_consume := true, user := u, subscription := sub,
                  remaining_hours := sub.available_hours - required_hours,
                  consumption_percentage :=
                    sub.consumed_hours / sub.monthly_hours_limit * 100 } ∧
    (verificar_consumo_disponible st user_id required_hours).2.all
      StoreCall.isRead = true := by
  have hav : sub.has_available_hours required_hours = true := by
    simp [Subscription.has_available_hours, hstat, hra]
  have hsusp : ¬ sub.status = SubscriptionStatus.suspended := by
    rw [hstat]; intro hc; cases hc
  constructor
  · simp [verificar_consumo_disponible, not_le.mpr hr0, hu, hacc, hs, hsusp,
      hav, Subscription.get_consumption_percentage, ne_of_gt hlim]
  · simp [verificar_consumo_disponible, not_le.mpr hr0, hu, hacc, hs, hsusp,
      hav, StoreCall.isRead]

/-- Witness for C7 (Scenario A): available 75 of limit 100, requesting 10
hours, yields an authorized projection with 65 hours remaining and 25
percent consumption, via read-only store calls. -/
theorem authorize_success_projection_witness :
    (verificar_consumo_disponible wStore "user-1" 10).1 =
      Except.ok { can_consume := true, user := wUser, subscription := wSub,
                  remaining_hours := 65, consumption_percentage := 25 } ∧
    (verificar_consumo_disponible wStore "user-1" 10).2.all
      StoreCall.isRead = true := by
  have h := authorize_success_projection wStore "user-1" 10 wUser wSub
    (by rfl) (by rfl) (by rfl) (by rfl)
    (by norm_num [wSub]) (by norm_num) (by norm_num [wSub])
  refine ⟨?_, h.2⟩
  rw [h.1]
  norm_num [wSub]

/-! ### Claim C8 -/

/-- Claim C8: past input validation, user lookup and the suspension
check, Authorize raises `InsufficientHours` exactly when the predicate
status = ACTIVE and available ≥ required fails, the raised error carries
the available hours, required hours and subscription status, and a
TRIAL subscription always fails the predicate. -/
theorem authorize_insufficient_hours_predicate (st : Store) (user_id : String)
    (required_hours : ℚ) (u : User) (sub : Subscription)
    (hr0 : 0 < required_hours)
    (hu : st.get_user_by_id user_id = some u)
    (hacc : u.can_access_system = true)
    (hs : st.get_active_subscription_by_user_id user_id = some sub)
    (hsusp : sub.status ≠ SubscriptionStatus.suspended) :
    ((verificar_consumo_disponible st user_id required_hours).1 =
        Except.error (.domain (.insufficientHours user_id required_hours
          sub.available_hours sub.status.value)) ↔
      ¬ (sub.status = SubscriptionStatus.active ∧
        required_hours ≤ sub.available_hours)) ∧
    (sub.status = SubscriptionStatus.trial →
      (verificar_consumo_disponible st user_id required_hours).1 =
        Except.error (.domain (.insufficientHours user_id required_hours
          sub.available_hours sub.status.value))) := by
  by_cases hav : sub.has_available_hours required_hours = true
  · have hpred : sub.status = SubscriptionStatus.active ∧
        required_hours ≤ sub.available_hours := by
      simpa [Subscription.has_available_hours] using hav
    constructor
    · simp [verificar_consumo_disponible, not_le.mpr hr0, hu, hacc, hs, hsusp,
        hav, hpred]
    · intro htrial
      rw [hpred.1] at htrial
      cases htrial
  · have hav2 : sub.has_available_hours required_hours = false := by
      simpa using hav
    have hpred : ¬ (sub.status = SubscriptionStatus.active ∧
        required_hours ≤ sub.available_hours) := by
      simpa [Subscription.has_available_hours] using hav2
    constructor
    · simp [verificar_consumo_disponible, not_le.mpr hr0, hu, hacc, hs, hsusp,
        hav2, hpred]
    · intro htrial
      simp [verificar_consumo_disponible, not_le.mpr hr0, hu, hacc, hs, hsusp,
        hav2]

/-- Witness for C8: a TRIAL subscription with 75 available hours fails a
10-hour authorization with `InsufficientHours` carrying available,
required and status. -/
theorem authorize_insufficient_hours_predicate_witness :
    (verificar_consumo_disponible
        { users := [("user-1", wUser)],
          subscriptions := [("user-1", { wSub with status := SubscriptionStatus.trial })],
          audit := [] } "user-1" 10).1 =
      Except.error (.domain (.insufficientHours "user-1" 10 75 "trial")) := by
  have h := (authorize_insufficient_hours_predicate
    { users := [("user-1", wUser)],
      subscriptions := [("user-1", { wSub with status := SubscriptionStatus.trial })],
      audit := [] } "user-1" 10 wUser
    { wSub with status := SubscriptionStatus.trial }
    (by norm_num) (by rfl) (by rfl) (by rfl) (by simp [wSub])).2 (by simp [wSub])
  simpa [wSub, SubscriptionStatus.value] using h

/-! ### Claim C10 -/

def wSubSuspendedRich : Subscription :=
  { wSub with status := SubscriptionStatus.suspended }

def wStoreSuspended : Store :=
  { users := [("user-1", wUser)],
    subscriptions := [("user-1", wSubSuspendedRich)], audit := [] }

def wSubTrial : Subscription :=
  { wSub with status := SubscriptionStatus.trial }

def wStoreTrial : Store :=
  { users := [("user-1", wUser)],
    subscriptions := [("user-1", wSubTrial)], audit := [] }

/-- Counterexample for C10 as stated: for a user whose subscription is
SUSPENDED (hence not ACTIVE) with 75 available hours, the Status query
raises `SubscriptionSuspended`, not the claimed `InsufficientHours`. -/
theorem status_query_suspended_counterexample :
    (obtener_estado_consumo wStoreSuspended "user-1").1 =
      Except.error (.domain (.subscriptionSuspended "user-1" "sub-1"
        "Subscription is suspended")) ∧
    PyError.isInsufficientHours (.domain (.subscriptionSuspended "user-1" "sub-1"
      "Subscription is suspended")) = false := by
  constructor
  · simp [obtener_estado_consumo, verificar_consumo_disponible,
      Store.get_user_by_id, Store.get_active_subscription_by_user_id,
      lookupEntry, wStoreSuspended, wSubSuspendedRich, wSub, wUser,
      User.can_access_system]
    norm_num
  · rfl

/-- Claim C10 (amended): the Status query is the authorization check
with a fixed 0.1 requirement; for an accessible user whose subscription
is found, a SUSPENDED subscription makes it raise
`SubscriptionSuspended`, and any other subscription that is not ACTIVE
or has fewer than 0.1 available hours makes it raise
`InsufficientHours` instead of returning a status projection. -/
theorem status_query_is_authorize_with_epsilon (st : Store) (user_id : String)
    (u : User) (sub : Subscription)
    (hu : st.get_user_by_id user_id = some u)
    (hacc : u.can_access_system = true)
    (hs : st.get_active_subscription_by_user_id user_id = some sub) :
    (obtener_estado_consumo st user_id =
      verificar_consumo_disponible st user_id (1/10)) ∧
    (sub.status = SubscriptionStatus.suspended →
      (obtener_estado_consumo st user_id).1 =
        Except.error (.domain (.subscriptionSuspended user_id sub.id
          "Subscription is suspended"))) ∧
    (sub.status ≠ SubscriptionStatus.suspended →
      ¬ (sub.status = SubscriptionStatus.active ∧ 1/10 ≤ sub.available_hours) →
      (obtener_estado_consumo st user_id).1 =
        Except.error (.domain (.insufficientHours user_id (1/10)
          sub.available_hours sub.status.value))) := by
  refine ⟨rfl, ?_, ?_⟩
  · intro hsusp
    simp [obtener_estado_consumo, verificar_consumo_disponible, hu, hacc, hs,
      hsusp]
    norm_num
  · intro hsusp hpred
    have hav : sub.has_available_hours (1/10) = false := by
      simp only [Subscription.has_available_hours, decide_eq_false_iff_not]
      exact hpred
    have h01 : (0:ℚ) < 1/10 := by norm_num
    show (verificar_consumo_disponible st user_id (1/10)).1 = _
    generalize (1/10 : ℚ) = ε at hav h01 ⊢
    simp [verificar_consumo_disponible, not_le.mpr h01, hu, hacc, hs, hsusp,
      hav]

/-- Witness for the amended C10: a TRIAL subscription with 75 available
hours cannot retrieve its consumption status; the Status query raises
`InsufficientHours` for 0.1 hours. -/
theorem status_query_is_authorize_with_epsilon_witness :
    (obtener_estado_consumo wStoreTrial "user-1").1 =
      Except.error (.domain (.insufficientHours "user-1" (1/10) 75 "trial")) := by
  have h := (status_query_is_authorize_with_epsilon wStoreTrial "user-1"
    wUser wSubTrial (by rfl) (by rfl) (by rfl)).2.2
    (by simp [wSubTrial, wSub]) (by simp [wSubTrial, wSub])
  simpa [wSubTrial, wSub, SubscriptionStatus.value] using h

/-! ### Claim C2 -/

def wSubAfterOne : Subscription :=
  { wSub with available_hours := 74, consumed_hours := 26 }

def wVerifOne : ConsumptionVerificationResult :=
  { can_consume := true, user := wUser, subscription := wSub,
    remaining_hours := 74, consumption_percentage := 25 }

/-- Counterexample for C2 as stated: when the commit step of the debit
raises, the re-raised wrapper is an `InvalidConsumption` error (the
bad-input exception type) carrying reason
`"Transaction failed: ..."`, not the distinct transaction-failure type. -/
theorem debit_failure_not_transaction_failed_counterexample :
    (consumir_horas wStore wCommitFault "user-1" 1).1 =
      Except.error (.domain (.invalidConsumption "user-1" 1
        "Transaction failed: db commit error")) ∧
    PyError.isDatabaseTransaction (.domain (.invalidConsumption "user-1" 1
      "Transaction failed: db commit error")) = false := by
  constructor
  · simp [consumir_horas, verificar_consumo_disponible, Store.get_user_by_id,
      Store.get_active_subscription_by_user_id, lookupEntry, wStore, wUser,
      wSub, wCommitFault, firstTxFault, User.can_access_system,
      Subscription.has_available_hours, Subscription.get_consumption_percentage,
      Subscription.consume_hours, Subscription.make, Subscription.validate,
      stripIsEmpty_subId, stripIsEmpty_userId, ratAbs]
    norm_num
    rfl
  · rfl

/-- Claim C2 (amended): when any persistence step of the debit (begin,
update, commit) raises, `consumir_horas` rolls the transaction back and
leaves the store unchanged, re-raising the original error wrapped as
`InvalidConsumption` with reason `"Transaction failed: <original>"` —
the exception type also used for bad-input rejections, not a distinct
`TransactionFailed`/`DatabaseTransactionException` type. -/
theorem debit_persistence_failure_wrapped (st : Store) (faults : TxFaults)
    (user_id : String) (hours : ℚ) (v : ConsumptionVerificationResult)
    (updated : Subscription) (msg : String)
    (hv : (verificar_consumo_disponible st user_id hours).1 = Except.ok v)
    (hc : v.subscription.consume_hours hours = Except.ok updated)
    (hf : firstTxFault faults = some msg) :
    consumir_horas st faults user_id hours =
      (Except.error (.domain (.invalidConsumption user_id hours
        ("Transaction failed: " ++ msg))),
        st, (verificar_consumo_disponible st user_id hours).2 ++
          [StoreCall.beginTransaction, StoreCall.rollbackTransaction]) := by
  unfold consumir_horas
  rcases hver : verificar_consumo_disponible st user_id hours with ⟨res, tr⟩
  rw [hver] at hv
  dsimp only at hv
  subst hv
  simp only [hver, hc, hf]

/-- Witness for the amended C2: a commit failure on a concrete one-hour
debit returns the wrapped invalid-consumption error, the unchanged
store, and a trace ending in a rollback. -/
theorem debit_persistence_failure_wrapped_witness :
    consumir_horas wStore wCommitFault "user-1" 1 =
      (Except.error (.domain (.invalidConsumption "user-1" 1
        "Transaction failed: db commit error")),
        wStore, [StoreCall.getUser "user-1",
          StoreCall.getActiveSubscription "user-1",
          StoreCall.beginTransaction, StoreCall.rollbackTransaction]) := by
  have h := debit_persistence_failure_wrapped wStore wCommitFault "user-1" 1
    wVerifOne wSubAfterOne "db commit error"
    (by
      simp [verificar_consumo_disponible, Store.get_user_by_id,
        Store.get_active_subscription_by_user_id, lookupEntry, wStore, wUser,
        wSub, wVerifOne, User.can_access_system,
        Subscription.has_available_hours,
        Subscription.get_consumption_percentage]
      norm_num)
    (by
      simp [wVerifOne, wSub, wSubAfterOne, Subscription.consume_hours,
        Subscription.has_available_hours, Subscription.make,
        Subscription.validate, stripIsEmpty, isSpaceChar, ratAbs]
      norm_num)
    (by rfl)
  rw [h]
  simp [verificar_consumo_disponible, Store.get_user_by_id,
    Store.get_active_subscription_by_user_id, lookupEntry, wStore, wUser, wSub,
    User.can_access_system, Subscription.has_available_hours]
  norm_num

/-! ### Claim C4 -/

/-- Claim C4: a debit that fails, at any stage, leaves the persisted
store exactly as it was, so a subsequent Status query returns exactly
the pre-debit result. -/
theorem debit_failure_leaves_store_unchanged (st : Store) (faults : TxFaults)
    (user_id : String) (hours : ℚ) (e : PyError)
    (h : (consumir_horas st faults user_id hours).1 = Except.error e) :
    (consumir_horas st faults user_id hours).2.1 = st ∧
    obtener_estado_consumo (consumir_horas st faults user_id hours).2.1 user_id =
      obtener_estado_consumo st user_id := by
  have hst : (consumir_horas st faults user_id hours).2.1 = st := by
    unfold consumir_horas at h ⊢
    rcases hver : verificar_consumo_disponible st user_id hours with ⟨res, tr⟩
    rw [hver] at h
    rcases res with e1 | v
    · rfl
    · dsimp only at h ⊢
      rcases hc : v.subscription.consume_hours hours with msg | upd
      · rfl
      · rw [hc] at h
        dsimp only at h ⊢
        rcases hf : firstTxFault faults with _ | m
        · rw [hf] at h
          dsimp only at h
          exact absurd h (by simp)
        · rfl
  exact ⟨hst, by rw [hst]⟩

/-- Witness for C4: after the concrete failing commit, the store is
unchanged and the Status query result is identical to the pre-debit
one. -/
theorem debit_failure_leaves_store_unchanged_witness :
    (consumir_horas wStore wCommitFault "user-1" 1).2.1 = wStore ∧
    obtener_estado_consumo (consumir_horas wStore wCommitFault "user-1" 1).2.1
        "user-1" =
      obtener_estado_consumo wStore "user-1" := by
  refine debit_failure_leaves_store_unchanged wStore wCommitFault "user-1" 1
    (.domain (.invalidConsumption "user-1" 1
      "Transaction failed: db commit error")) ?_
  simp [consumir_horas, verificar_consumo_disponible, Store.get_user_by_id,
    Store.get_active_subscription_by_user_id, lookupEntry, wStore, wUser, wSub,
    wCommitFault, firstTxFault, User.can_access_system,
    Subscription.has_available_hours, Subscription.get_consumption_percentage,
    Subscription.consume_hours, Subscription.make, Subscription.validate,
    stripIsEmpty_subId, stripIsEmpty_userId, ratAbs]
  norm_num
  rfl

/-! ### Claim C1 -/

/-- A successful post-processing debit consumed exactly
duration / 60 hours and recorded one audit entry whose reference is the
meeting id it was invoked with. -/
theorem actualizar_ok_spec (st : Store) (faults : TxFaults) (user_id : String)
    (duration_minutes : ℤ) (meeting_id : String) (r : ConsumptionUpdateResult)
    (h : (actualizar_registro_consumo st faults user_id duration_minutes
      meeting_id).1 = Except.ok r) :
    r.hours_consumed = (duration_minutes : ℚ) / 60 ∧
    (actualizar_registro_consumo st faults user_id duration_minutes
      meeting_id).2.1.audit =
      st.audit ++ [{ user_id := user_id,
                     hours_consumed := (duration_minutes : ℚ) / 60,
                     meeting_id := meeting_id }] := by
  rcases hact : actualizar_registro_consumo st faults user_id duration_minutes
    meeting_id with ⟨ares, ast, atr⟩
  rw [hact] at h
  dsimp only at h ⊢
  subst h
  unfold actualizar_registro_consumo at hact
  split at hact
  · simp at hact
  · split at hact
    · simp at hact
    · dsimp only at hact
      rcases hver : verificar_consumo_disponible st user_id
        ((duration_minutes : ℚ) / 60) with ⟨res, tr⟩
      rw [hver] at hact
      rcases res with e1 | v
      · simp at hact
      · dsimp only at hact
        rcases hc : v.subscription.consume_hours ((duration_minutes : ℚ) / 60)
          with msg | upd
        · rw [hc] at hact
          simp at hact
        · rw [hc] at hact
          dsimp only at hact
          rcases hf : firstTxFault faults with _ | m
          · rw [hf] at hact
            dsimp only at hact
            simp only [Prod.mk.injEq, Except.ok.injEq] at hact
            obtain ⟨h1, h2, h3⟩ := hact
            subst h1
            subst h2
            exact ⟨rfl, rfl⟩
          · rw [hf] at hact
            simp at hact


def wCallbackReq : N8NCallbackRequest :=
  { user_id := "user-1", meeting_id := "meeting-456", processing_id := "proc-789",
    actual_duration_minutes := 60, prd_generated := true, tasks_created := 3,
    processing_status := "completed", error_message := none }

def wUpdateResult : ConsumptionUpdateResult :=
  { success := true, hours_consumed := 1, remaining_hours := 74,
    transaction_id := none, error_message := none }

/-- Claim C1 (amended): for every callback whose status is not "failed",
the handler converts the duration from minutes to hours and invokes the
debit for that user with the meeting id (not the processing correlation
id) as reference, and it propagates UserNotFound, SubscriptionNotFound
and the transaction-failure error as distinct failure signals; on a
successful debit, however, it does not return consumption_updated =
true with the remaining hours and percentage: building that response
reads a consumption_percentage field that ConsumptionUpdateResult does
not have, so the handler answers with the generic 500 INTERNAL_ERROR
while the debit stays committed. -/
theorem callback_completed_debit_behaviour (st : Store) (faults : TxFaults) (req : N8NCallbackRequest)
    (hstatus : ¬ strToLower req.processing_status = "failed") :
    (∀ r, (actualizar_registro_consumo st faults req.user_id
        req.actual_duration_minutes req.meeting_id).1 = Except.ok r →
      n8n_processing_callback st faults req =
        (Except.error { status_code := 500, error := "INTERNAL_ERROR" },
          (actualizar_registro_consumo st faults req.user_id
            req.actual_duration_minutes req.meeting_id).2.1) ∧
      r.hours_consumed = (req.actual_duration_minutes : ℚ) / 60 ∧
      (actualizar_registro_consumo st faults req.user_id
        req.actual_duration_minutes req.meeting_id).2.1.audit =
        st.audit ++ [{ user_id := req.user_id,
                       hours_consumed := (req.actual_duration_minutes : ℚ) / 60,
                       meeting_id := req.meeting_id }]) ∧
    (∀ uid, (actualizar_registro_consumo st faults req.user_id
        req.actual_duration_minutes req.meeting_id).1 =
        Except.error (.domain (.userNotFound uid)) →
      (n8n_processing_callback st faults req).1 =
        Except.error { status_code := 404, error := "USER_NOT_FOUND" }) ∧
    (∀ uid, (actualizar_registro_consumo st faults req.user_id
        req.actual_duration_minutes req.meeting_id).1 =
        Except.error (.domain (.subscriptionNotFound uid)) →
      (n8n_processing_callback st faults req).1 =
        Except.error { status_code := 404, error := "SUBSCRIPTION_NOT_FOUND" }) ∧
    (∀ ex, (actualizar_registro_consumo st faults req.user_id
        req.actual_duration_minutes req.meeting_id).1 =
        Except.error (.databaseTransaction ex) →
      (n8n_processing_callback st faults req).1 =
        Except.error { status_code := 500, error := "CONSUMPTION_UPDATE_FAILED" }) := by
  refine ⟨?_, ?_, ?_, ?_⟩
  · intro r hr
    obtain ⟨hh, ha⟩ := actualizar_ok_spec st faults req.user_id
      req.actual_duration_minutes req.meeting_id r hr
    refine ⟨?_, hh, ha⟩
    unfold n8n_processing_callback
    rw [if_neg hstatus]
    rcases hact : actualizar_registro_consumo st faults req.user_id
      req.actual_duration_minutes req.meeting_id with ⟨ares, ast, atr⟩
    rw [hact] at hr
    dsimp only at hr
    subst hr
    rfl
  · intro uid hr
    unfold n8n_processing_callback
    rw [if_neg hstatus]
    rcases hact : actualizar_registro_consumo st faults req.user_id
      req.actual_duration_minutes req.meeting_id with ⟨ares, ast, atr⟩
    rw [hact] at hr
    dsimp only at hr
    subst hr
    rfl
  · intro uid hr
    unfold n8n_processing_callback
    rw [if_neg hstatus]
    rcases hact : actualizar_registro_consumo st faults req.user_id
      req.actual_duration_minutes req.meeting_id with ⟨ares, ast, atr⟩
    rw [hact] at hr
    dsimp only at hr
    subst hr
    rfl
  · intro ex hr
    unfold n8n_processing_callback
    rw [if_neg hstatus]
    rcases hact : actualizar_registro_consumo st faults req.user_id
      req.actual_duration_minutes req.meeting_id with ⟨ares, ast, atr⟩
    rw [hact] at hr
    dsimp only at hr
    subst hr
    rfl

/-- Counterexample for C1 as stated: on a concrete completed callback
the debit succeeds and commits with the meeting id "meeting-456" as the
recorded reference — not the correlation id "proc-789" — and the
handler does not return consumption_updated = true with the remaining
hours and percentage: it answers with the generic 500 INTERNAL_ERROR
(the router reads update_result.consumption_percentage, a field the
result type does not have). -/
theorem callback_reference_counterexample :
    (n8n_processing_callback wStore noTxFaults wCallbackReq).2.audit =
      [{ user_id := "user-1", hours_consumed := 1, meeting_id := "meeting-456" }] ∧
    wCallbackReq.processing_id = "proc-789" ∧
    ("meeting-456" : String) ≠ "proc-789" ∧
    (n8n_processing_callback wStore noTxFaults wCallbackReq).1 =
      Except.error { status_code := 500, error := "INTERNAL_ERROR" } := by
  refine ⟨?_, rfl, by decide, ?_⟩
  · simp [n8n_processing_callback, actualizar_registro_consumo, wCallbackReq,
      verificar_consumo_disponible, Store.get_user_by_id,
      Store.get_active_subscription_by_user_id, Store.update_subscription,
      lookupEntry, setEntry, wStore, wUser, wSub, noTxFaults, firstTxFault,
      User.can_access_system, Subscription.has_available_hours,
      Subscription.get_consumption_percentage, Subscription.consume_hours,
      Subscription.make, Subscription.validate, stripIsEmpty_subId,
      stripIsEmpty_userId, stripIsEmpty_meetingId, ratAbs, strToLower,
      charToLower]
    norm_num
    rfl
  · simp [n8n_processing_callback, actualizar_registro_consumo, wCallbackReq,
      verificar_consumo_disponible, Store.get_user_by_id,
      Store.get_active_subscription_by_user_id, Store.update_subscription,
      lookupEntry, setEntry, wStore, wUser, wSub, noTxFaults, firstTxFault,
      User.can_access_system, Subscription.has_available_hours,
      Subscription.get_consumption_percentage, Subscription.consume_hours,
      Subscription.make, Subscription.validate, stripIsEmpty_subId,
      stripIsEmpty_userId, stripIsEmpty_meetingId, ratAbs, strToLower,
      charToLower]
    norm_num
    rw [stripIsEmpty_subId, stripIsEmpty_userId]
    norm_num

/-- Witness for the amended C1: a concrete completed 60-minute callback
debits one hour with reference "meeting-456" and answers with the
generic 500. -/
theorem callback_completed_debit_behaviour_witness :
    n8n_processing_callback wStore noTxFaults wCallbackReq =
      (Except.error { status_code := 500, error := "INTERNAL_ERROR" },
        (actualizar_registro_consumo wStore noTxFaults "user-1" 60
          "meeting-456").2.1) ∧
    wUpdateResult.hours_consumed = (60 : ℚ) / 60 ∧
    (actualizar_registro_consumo wStore noTxFaults "user-1" 60
      "meeting-456").2.1.audit =
      wStore.audit ++ [{ user_id := "user-1", hours_consumed := (60 : ℚ) / 60,
                         meeting_id := "meeting-456" }] := by
  have h := (callback_completed_debit_behaviour wStore noTxFaults wCallbackReq (by decide)).1
    wUpdateResult
    (by
      simp [actualizar_registro_consumo, wCallbackReq, wUpdateResult,
        verificar_consumo_disponible, Store.get_user_by_id,
        Store.get_active_subscription_by_user_id, Store.update_subscription,
        lookupEntry, setEntry, wStore, wUser, wSub, noTxFaults, firstTxFault,
        User.can_access_system, Subscription.has_available_hours,
        Subscription.get_consumption_percentage, Subscription.consume_hours,
        Subscription.make, Subscription.validate, stripIsEmpty_subId,
        stripIsEmpty_userId, stripIsEmpty_meetingId, ratAbs]
      norm_num
      rw [stripIsEmpty_subId, stripIsEmpty_userId]
      norm_num)
  simpa [wCallbackReq, wUpdateResult] using h

/-! ### Claim C5 -/

/-- Consecutive expected failures from a fresh CLOSED breaker, exactly
up to the threshold, open the circuit and record the last failure
timestamp, preserving the configuration. -/
theorem applyFailures_spec (times : List ℚ) : ∀ (cb : CircuitBreaker) (tlast : ℚ),
    cb.state = CircuitState.closed →
    times.getLast? = some tlast →
    cb.failure_count + times.length = cb.failure_threshold →
    (applyFailures cb times).state = CircuitState.opened ∧
    (applyFailures cb times).last_failure_time = some tlast ∧
    (applyFailures cb times).failure_threshold = cb.failure_threshold ∧
    (applyFailures cb times).timeout = cb.timeout := by
  induction times with
  | nil =>
    intro cb tlast _ hlast _
    simp at hlast
  | cons t rest ih =>
    intro cb tlast hstate hlast hcount
    have hgate : cb.gate t = ({ cb with total_calls := cb.total_calls + 1 }, true) := by
      unfold CircuitBreaker.gate
      simp [hstate]
    have hcall : (cb.call t (FnBehavior.raises true)).2.1 =
        CircuitBreaker.on_failure { cb with total_calls := cb.total_calls + 1 } t := by
      unfold CircuitBreaker.call
      rw [hgate]
      rfl
    rcases rest with _ | ⟨r, rs⟩
    · have ht : t = tlast := by simpa using hlast
      subst ht
      have hth : cb.failure_threshold ≤ cb.failure_count + 1 := by
        simp at hcount
        omega
      unfold applyFailures
      rw [hcall]
      unfold applyFailures CircuitBreaker.on_failure
      simp [hth]
    · have hth : ¬ (cb.failure_threshold ≤ cb.failure_count + 1) := by
        simp at hcount
        omega
      have hfail : (cb.call t (FnBehavior.raises true)).2.1 =
          { cb with
            total_calls := cb.total_calls + 1
            failure_count := cb.failure_count + 1
            failed_calls := cb.failed_calls + 1
            last_failure_time := some t } := by
        rw [hcall]
        unfold CircuitBreaker.on_failure
        simp [hth]
      have hlast2 : (r :: rs).getLast? = some tlast := by
        rw [← hlast]
        exact (List.getLast?_cons_cons ..).symm
      obtain ⟨ha, hb, hc2, hd⟩ := ih { cb with total_calls := cb.total_calls + 1, failure_count := cb.failure_count + 1, failed_calls := cb.failed_calls + 1, last_failure_time := some t } tlast hstate hlast2 (by simp at hcount ⊢; omega)
      unfold applyFailures
      rw [hfail]
      exact ⟨ha, hb, hc2, hd⟩


/-- Claim C5: after threshold-many consecutive expected failures the
breaker is OPEN; the next call within the timeout window fails fast
with CircuitOpen, does not invoke the protected function and stays
OPEN; once the timeout has elapsed the breaker moves to HALF_OPEN and
the call invokes the protected function as a single probe. -/
theorem circuit_breaker_opens_and_probes (threshold : ℕ) (timeout : ℚ)
    (times : List ℚ) (tlast : ℚ) (now : ℚ) (fn : FnBehavior)
    (hlast : times.getLast? = some tlast)
    (hlen : times.length = threshold) :
    (applyFailures (CircuitBreaker.make threshold timeout) times).state =
      CircuitState.opened ∧
    (applyFailures (CircuitBreaker.make threshold timeout) times).last_failure_time =
      some tlast ∧
    (now - tlast < timeout →
      ((applyFailures (CircuitBreaker.make threshold timeout) times).call now fn).1 =
        CallOutcome.circuitOpen ∧
      ((applyFailures (CircuitBreaker.make threshold timeout) times).call now fn).2.2 =
        false ∧
      ((applyFailures (CircuitBreaker.make threshold timeout) times).call now
        fn).2.1.state = CircuitState.opened) ∧
    (timeout ≤ now - tlast →
      ((applyFailures (CircuitBreaker.make threshold timeout) times).call now fn).2.2 =
        true ∧
      ((applyFailures (CircuitBreaker.make threshold timeout) times).gate
        now).1.state = CircuitState.halfOpen) := by
  obtain ⟨hs, hl, hth, hto⟩ := applyFailures_spec times
    (CircuitBreaker.make threshold timeout) tlast rfl hlast
    (by simp [CircuitBreaker.make, hlen])
  have hto2 : (applyFailures (CircuitBreaker.make threshold timeout)
    times).timeout = timeout := hto
  refine ⟨hs, hl, ?_, ?_⟩
  · intro hlt
    have hgate : (applyFailures (CircuitBreaker.make threshold timeout) times).gate
        now = ({ applyFailures (CircuitBreaker.make threshold timeout) times with
          total_calls := (applyFailures (CircuitBreaker.make threshold
            timeout) times).total_calls + 1 }, false) := by
      unfold CircuitBreaker.gate CircuitBreaker.should_attempt_reset
      simp [hs, hl, hto2, not_le.mpr hlt]
    unfold CircuitBreaker.call
    rw [hgate]
    exact ⟨rfl, rfl, hs⟩
  · intro hge
    have hgate : (applyFailures (CircuitBreaker.make threshold timeout) times).gate
        now = ({ applyFailures (CircuitBreaker.make threshold timeout) times with
          total_calls := (applyFailures (CircuitBreaker.make threshold
            timeout) times).total_calls + 1,
          state := CircuitState.halfOpen }, true) := by
      unfold CircuitBreaker.gate CircuitBreaker.should_attempt_reset
      simp [hs, hl, hto2, hge]
    constructor
    · unfold CircuitBreaker.call
      rw [hgate]
      cases fn <;> rfl
    · rw [hgate]

/-- Witness for C5: threshold 3, timeout 60, failures at 10, 20, 30; a
call at 40 fails fast without invoking the function, a call at 95
invokes it with the gate in HALF_OPEN. -/
theorem circuit_breaker_opens_and_probes_witness :
    (applyFailures (CircuitBreaker.make 3 60) [10, 20, 30]).state =
      CircuitState.opened ∧
    ((applyFailures (CircuitBreaker.make 3 60) [10, 20, 30]).call 40
      (FnBehavior.raises true)).1 = CallOutcome.circuitOpen ∧
    ((applyFailures (CircuitBreaker.make 3 60) [10, 20, 30]).call 40
      (FnBehavior.raises true)).2.2 = false ∧
    ((applyFailures (CircuitBreaker.make 3 60) [10, 20, 30]).call 95
      FnBehavior.succeeds).2.2 = true ∧
    ((applyFailures (CircuitBreaker.make 3 60) [10, 20, 30]).gate 95).1.state =
      CircuitState.halfOpen := by
  obtain ⟨hs, _, h3, _⟩ := circuit_breaker_opens_and_probes 3 60 [10, 20, 30] 30 40
    (FnBehavior.raises true) (by rfl) (by rfl)
  obtain ⟨_, _, _, h4⟩ := circuit_breaker_opens_and_probes 3 60 [10, 20, 30] 30 95
    FnBehavior.succeeds (by rfl) (by rfl)
  obtain ⟨a1, a2, _⟩ := h3 (by norm_num)
  obtain ⟨b1, b2⟩ := h4 (by norm_num)
  exact ⟨hs, a1, a2, b1, b2⟩

/-! ### Claim C9 -/

/-- Claim C9: the dispatch client never mutates the subscription
ledger: `trigger_n8n_workflow` makes no repository call and returns the
store unchanged for every outcome (sent, failed, timeout), and the
process-start endpoint that authorizes and then dispatches leaves the
store unchanged whatever the dispatch outcome — a failed dispatch after
a successful authorization has consumed zero hours. -/
theorem dispatch_never_mutates_ledger (st : Store) (webhook_url : Option String)
    (max_retries : ℕ) (payload : WebhookPayload) (attempts : ℕ → AttemptOutcome)
    (req : ProcessStartRequest) :
    (trigger_n8n_workflow st webhook_url max_retries payload attempts).2.1 = st ∧
    (trigger_n8n_workflow st webhook_url max_retries payload attempts).2.2 = [] ∧
    (iniciar_procesamiento_reunion st req webhook_url max_retries attempts).2 = st := by
  refine ⟨?_, ?_, ?_⟩
  · unfold trigger_n8n_workflow
    cases webhook_url <;> rfl
  · unfold trigger_n8n_workflow
    cases webhook_url <;> rfl
  · unfold iniciar_procesamiento_reunion
    dsimp only
    rcases hver : verificar_consumo_disponible st req.user_id
      ((req.estimated_duration_minutes : ℚ) / 60) with ⟨res, tr⟩
    rcases res with e | v
    · rcases e with d | dbx | msg
      · rcases d with uid | uid | ⟨a, b, c⟩ | ⟨a, b, c, d2⟩ | ⟨a, b, c⟩
        all_goals rfl
      · rfl
      · rfl
    · unfold trigger_n8n_workflow
      rcases webhook_url with _ | url
      · dsimp only
        split
        · rfl
        · rfl
      · dsimp only
        split
        · rfl
        · rfl

end MemoryMeet
